import Mathlib

/-
Verification development for the gadgetrajjo storefront repository.

The embedding below translates the business logic of the repository into
Lean definitions:

- the cart checkout flow (handleSubmit in the Cart page), including the
  live-stock reconciliation, the order / order-items inserts and the
  compensating delete;
- the catalog image normalizer (fetchProducts in the Home page) and the
  strict cart-display image picker (getFirstImageUrl in the Cart page);
- the pagination of the sorted product list (Home page);
- the analytics emitter (fbqTrack in fbpixel.ts).

External collaborators (the supabase backend, JSON.parse, the fb pixel
library) are modelled as explicit parameters: backend insert outcomes as
boolean flags, JSON.parse as an oracle of type String -> Option Json, and
the global tracking function as an optional fallible function.
-/

namespace Gadget

/-! ## JavaScript string primitives

The JS string methods used by the code, modelled structurally on the
character list so that concrete instances reduce in the kernel. -/

/-- Model of the JS String.prototype.trim method: strip leading and
trailing whitespace. -/
def jsTrim (s : String) : String :=
  String.mk
    (((s.data.dropWhile Char.isWhitespace).reverse.dropWhile
        Char.isWhitespace).reverse)

/-- Model of the JS String.prototype.toLowerCase method. -/
def jsToLower (s : String) : String :=
  String.mk (s.data.map Char.toLower)

/-- Model of the JS String.prototype.endsWith method. -/
def jsEndsWith (s suffixStr : String) : Bool :=
  suffixStr.data.isSuffixOf s.data

/-! ## Data model for the checkout flow (Cart page) -/

/-- A cart line as held by the Cart Store: denormalized product snapshot
plus requested quantity. -/
structure CartItem where
  id : String
  name : String
  price : ℚ
  quantity : Int
  deriving Repr, DecidableEq

/-- A live product row as returned by the stock-check fetch
(select id, name, stock, price). -/
structure ProductRow where
  id : String
  name : String
  stock : Int
  price : ℚ
  deriving Repr, DecidableEq

/-- The delivery location selected on the checkout form. -/
inductive LocationType where
  | inside_dhaka
  | outside_dhaka
  deriving Repr, DecidableEq

/-- Delivery charge lookup table (defaults 60 / 120, possibly overridden
by the delivery_charges table at page load). -/
structure DeliveryCharges where
  inside_dhaka : ℚ
  outside_dhaka : ℚ
  deriving Repr, DecidableEq

/-- The checkout form state. -/
structure FormData where
  name : String
  phone : String
  address : String
  location : LocationType
  deriving Repr, DecidableEq

/-- Two-decimal rounding, modelling parseFloat(x.toFixed(2)). -/
def round2 (q : ℚ) : ℚ := (round (q * 100) : ℤ) / 100

/-- Modelled from the spec: the Cart Store collaborator (CartContext) is not
among the source files; section 4.3 of the spec defines the derived total as
the sum of price times quantity over all lines. -/
def totalPrice (items : List CartItem) : ℚ :=
  (items.map (fun i => i.price * (i.quantity : ℚ))).sum

/-- Charge selected by the location radio button (Cart page, deliveryCharge). -/
def deliveryCharge (charges : DeliveryCharges) (loc : LocationType) : ℚ :=
  match loc with
  | LocationType.inside_dhaka => charges.inside_dhaka
  | LocationType.outside_dhaka => charges.outside_dhaka

/-- Cart page, finalTotal = totalPrice + deliveryCharge. -/
def finalTotal (items : List CartItem) (charges : DeliveryCharges)
    (loc : LocationType) : ℚ :=
  totalPrice items + deliveryCharge charges loc

/-- Modelled from the spec: the Cart Store collaborator (CartContext) is not
among the source files; section 4.3 of the spec defines removeItem as
dropping the line with the given product id. -/
def removeItem (cart : List CartItem) (pid : String) : List CartItem :=
  cart.filter fun i => i.id != pid

/-- The per-line validity check of handleSubmit: a line is invalid when its
id or name is falsy or its price or quantity is non-positive. -/
def invalidLine (i : CartItem) : Bool :=
  i.id == "" || i.name == "" || decide (i.price ≤ 0) || decide (i.quantity ≤ 0)

/-- Characters accepted by the permissive phone pattern
(digits, plus, minus, whitespace, parentheses). -/
def isPhoneChar (c : Char) : Bool :=
  c.isDigit || c == '+' || c == '-' || c == ' ' || c == '\t' || c == '\n' ||
    c == '\r' || c == '(' || c == ')'

/-- The phone regex test: one or more allowed characters. -/
def phoneOk (s : String) : Bool :=
  s != "" && s.data.all isPhoneChar

/-- The rejection taxonomy of handleSubmit, in source order. -/
inductive SubmitError where
  | emptyCart
  | invalidCartLine
  | nameRequired
  | phoneRequired
  | phoneInvalid
  | addressRequired
  | fetchFailed
  | productsUnavailable (names : List String)
  | outOfStock (entries : List (String × Int))
  | orderCreateFailed
  | orderIdMissing
  | noValidItems
  | itemsInsertFailed
  deriving Repr, DecidableEq

/-- A row of the orders table as inserted by handleSubmit. -/
structure OrderRow where
  id : String
  customer_name : String
  phone : String
  address : String
  location_type : LocationType
  total_amount : ℚ
  status : String
  deriving Repr, DecidableEq

/-- A row of the order_items table as inserted by handleSubmit. -/
structure OrderItemRow where
  order_id : String
  product_id : String
  quantity : Int
  price : ℚ
  deriving Repr, DecidableEq

/-- Outcomes of the backend calls made during one submission, supplied as
an oracle: whether the stock-check fetch errors, whether the order insert
errors, the id returned for the new order, and whether the order-items
insert errors. -/
structure BackendFlags where
  productsFetchError : Bool
  orderInsertError : Bool
  orderId : String
  itemsInsertError : Bool
  deriving Repr, DecidableEq

/-- The observable result of one submission: the reported outcome, the Cart
Store content afterwards, and the net rows this submission left in the
orders and order_items tables (inserted and not compensating-deleted). -/
structure SubmitResult where
  outcome : Except SubmitError String
  cart : List CartItem
  orders : List OrderRow
  orderItems : List OrderItemRow
  deriving Repr

/-- The stock-check fetch: select id, name, stock, price from products
where id in productIds. -/
def existingProducts (items : List CartItem) (db : List ProductRow) :
    List ProductRow :=
  db.filter fun p => (items.map CartItem.id).contains p.id

/-- Cart lines whose product id is absent from the fetched row set. -/
def missingItems (items : List CartItem) (db : List ProductRow) :
    List CartItem :=
  items.filter fun i =>
    !(((existingProducts items db).map ProductRow.id).contains i.id)

/-- The accumulated out-of-stock report: for every line whose fetched row
has stock below the requested quantity, the product name and its stock. -/
def outOfStockItems (items : List CartItem) (db : List ProductRow) :
    List (String × Int) :=
  items.filterMap fun i =>
    match (existingProducts items db).find? (fun p => p.id == i.id) with
    | some p => if p.stock < i.quantity then some (p.name, p.stock) else none
    | none => none

/-- The order_items rows built after the order insert: one per cart line
whose id appears among the fetched products, with snapshot price rounded
to two decimals. -/
def orderItemsOf (items : List CartItem) (db : List ProductRow)
    (oid : String) : List OrderItemRow :=
  (items.filter fun i =>
      (existingProducts items db).any fun p => p.id == i.id).map
    fun i => OrderItemRow.mk oid i.id i.quantity (round2 i.price)

/-- The orders row inserted by handleSubmit: trimmed contact fields,
pending status, two-decimal rounded total. -/
def newOrderRow (fd : FormData) (charges : DeliveryCharges)
    (items : List CartItem) (oid : String) : OrderRow :=
  OrderRow.mk oid (jsTrim fd.name) (jsTrim fd.phone) (jsTrim fd.address) fd.location
    (round2 (finalTotal items charges fd.location)) "pending"

/-- The tail of handleSubmit from the orders insert on: order insert, the
zero-valid-items guard with compensating delete, the order_items insert
with compensating delete on failure, and the success path that clears the
Cart Store. -/
def submitOrders (items : List CartItem) (fd : FormData)
    (charges : DeliveryCharges) (db : List ProductRow)
    (flags : BackendFlags) : SubmitResult :=
  if flags.orderInsertError then
    SubmitResult.mk (Except.error SubmitError.orderCreateFailed) items [] []
  else if flags.orderId == "" then
    SubmitResult.mk (Except.error SubmitError.orderIdMissing) items
      [newOrderRow fd charges items flags.orderId] []
  else
    let oitems := orderItemsOf items db flags.orderId
    if oitems.isEmpty then
      SubmitResult.mk (Except.error SubmitError.noValidItems) items [] []
    else if flags.itemsInsertError then
      SubmitResult.mk (Except.error SubmitError.itemsInsertFailed) items [] []
    else
      SubmitResult.mk (Except.ok flags.orderId) []
        [newOrderRow fd charges items flags.orderId] oitems

/-- The part of handleSubmit from the out-of-stock accumulation on. -/
def stockAndSubmit (items : List CartItem) (fd : FormData)
    (charges : DeliveryCharges) (db : List ProductRow)
    (flags : BackendFlags) : SubmitResult :=
  let oos := outOfStockItems items db
  if !oos.isEmpty then
    SubmitResult.mk (Except.error (SubmitError.outOfStock oos)) items [] []
  else submitOrders items fd charges db flags

/-- The checkout submission handler of the Cart page, with the validation
steps, the live fetch reconciliation and the insert sequence in source
order. -/
def handleSubmit (items : List CartItem) (fd : FormData)
    (charges : DeliveryCharges) (db : List ProductRow)
    (flags : BackendFlags) : SubmitResult :=
  if items.isEmpty then
    SubmitResult.mk (Except.error SubmitError.emptyCart) items [] []
  else if items.any invalidLine then
    SubmitResult.mk (Except.error SubmitError.invalidCartLine) items [] []
  else if (jsTrim fd.name) == "" then
    SubmitResult.mk (Except.error SubmitError.nameRequired) items [] []
  else if (jsTrim fd.phone) == "" then
    SubmitResult.mk (Except.error SubmitError.phoneRequired) items [] []
  else if !phoneOk (jsTrim fd.phone) then
    SubmitResult.mk (Except.error SubmitError.phoneInvalid) items [] []
  else if (jsTrim fd.address) == "" then
    SubmitResult.mk (Except.error SubmitError.addressRequired) items [] []
  else if flags.productsFetchError then
    SubmitResult.mk (Except.error SubmitError.fetchFailed) items [] []
  else if (existingProducts items db).length != items.length then
    let missing := missingItems items db
    if !missing.isEmpty then
      SubmitResult.mk
        (Except.error (SubmitError.productsUnavailable
          (missing.map CartItem.name)))
        (missing.foldl (fun c m => removeItem c m.id) items) [] []
    else stockAndSubmit items fd charges db flags
  else stockAndSubmit items fd charges db flags

/-! ## Pagination of the sorted product list (Home page) -/

/-- Fixed page size of the Home page grid. -/
def ITEMS_PER_PAGE : ℕ := 12

/-- The current page slice: sortedProducts.slice(startIndex, endIndex) with
startIndex = (currentPage - 1) * ITEMS_PER_PAGE and
endIndex = startIndex + ITEMS_PER_PAGE. -/
def paginatedProducts {α : Type} (sortedProducts : List α)
    (currentPage : ℕ) : List α :=
  (sortedProducts.drop ((currentPage - 1) * ITEMS_PER_PAGE)).take ITEMS_PER_PAGE

/-- The page count: Math.ceil(count / ITEMS_PER_PAGE), computed on exact
rationals. -/
def totalPages (count : ℕ) : ℕ :=
  (⌈(count : ℚ) / (ITEMS_PER_PAGE : ℚ)⌉).toNat

/-! ## Analytics emitter (fbpixel.ts) -/

/-- What one fbqTrack invocation did: either forwarded the event to the
loaded pixel library, or warned because the library is not loaded. -/
inductive FbqOutcome where
  | tracked (event : String) (props : List (String × String))
  | warned (event : String) (props : List (String × String))
  deriving Repr, DecidableEq

/-- The analytics emitter. The global tracking function window.fbq is an
external collaborator, modelled as an optional function that may raise
(Except.error). fbqTrack checks for undefined and otherwise calls it
directly, with no try/catch around the call, so an error from the call
propagates to the caller. -/
def fbqTrack (fbq : Option (String → List (String × String) → Except String Unit))
    (event : String) (props : List (String × String)) :
    Except String FbqOutcome :=
  match fbq with
  | Option.none => Except.ok (FbqOutcome.warned event props)
  | some f =>
    match f event props with
    | Except.ok _ => Except.ok (FbqOutcome.tracked event props)
    | Except.error e => Except.error e

/-- A tracking function that raises: used to exercise the uncaught-error
path of fbqTrack. -/
def fbqRaising : String → List (String × String) → Except String Unit :=
  fun _ _ => Except.error "transport failure"

/-- A tracking function that returns normally. -/
def fbqNormal : String → List (String × String) → Except String Unit :=
  fun _ _ => Except.ok ()

/-! ## Image normalizers -/

/-- JSON values as far as the image-parsing code distinguishes them: the
code only ever asks whether a parsed value is an array and whether an
entry is a string, so objects and other scalars are represented by the
catch-all scalar constructors. -/
inductive Json where
  | null
  | bool (b : Bool)
  | num (q : ℚ)
  | str (s : String)
  | arr (xs : List Json)

/-- Extract the string payload of a JSON value, if it is one. -/
def Json.asStr : Json → Option String
  | Json.str s => some s
  | _ => Option.none

/-- Entry filter used on image arrays by fetchProducts:
img and typeof img === string and img.trim(), keeping the entry. -/
def strEntryOk (j : Json) : Option String :=
  match j with
  | Json.str t => if t != "" && jsTrim t != "" then some t else Option.none
  | _ => Option.none

/-- The first block of the normalizer in fetchProducts: compute the images
value from the images field, with JSON.parse supplied as an oracle;
Option.none models the value staying undefined. -/
def rawImagesCode (parse : String → Option Json) (imagesField : Option Json) :
    Option (List String) :=
  match imagesField with
  | Option.none => Option.none
  | some (Json.str s) =>
    match parse s with
    | some (Json.arr xs) => some (xs.filterMap strEntryOk)
    | some _ => some (([s] : List String).filter
        (fun t => t != "" && jsTrim t != ""))
    | Option.none => if s != "" && jsTrim s != "" then some [s] else Option.none
  | some (Json.arr xs) => some (xs.filterMap strEntryOk)
  | some _ => Option.none

/-- The fallback block of the normalizer: if the images value is undefined
or empty and the legacy image_url is truthy with non-blank trim, use the
one-element list of the legacy URL. -/
def applyImageFallback (images : Option (List String))
    (image_url : Option String) : Option (List String) :=
  let needFallback : Bool :=
    match images with
    | Option.none => true
    | some l => l.isEmpty
  if needFallback then
    match image_url with
    | some u => if u != "" && jsTrim u != "" then some [u] else images
    | Option.none => images
  else images

/-- The final conditional of the normalizer: keep the images value only when
it is defined and non-empty. -/
def finalizeImages (images : Option (List String)) : Option (List String) :=
  match images with
  | some l => if 0 < l.length then some l else Option.none
  | Option.none => Option.none

/-- The catalog image normalizer of fetchProducts (Home page): the images
field (absent or a JSON value) is reduced to an optional list of display
URLs, with the legacy image_url field as fallback. Option.none models
undefined; the same logic appears in fetchProduct of ProductDetails, whose
only difference (undefined instead of an empty filtered list in the
non-array parse branch) is erased by the fallback and final blocks. -/
def normalizeImagesCode (parse : String → Option Json)
    (imagesField : Option Json) (image_url : Option String) :
    Option (List String) :=
  finalizeImages (applyImageFallback (rawImagesCode parse imagesField) image_url)

/-- Modelled from the spec, section 4.1, step 3: keep the non-blank string
entries of the raw list. -/
def specStrEntry (j : Json) : Option String :=
  match j with
  | Json.str t => if jsTrim t != "" then some t else Option.none
  | _ => Option.none

/-- Modelled from the spec, section 4.1, steps 1 and 2: the raw entry list.
A string field is JSON-parsed, taking the array on success and otherwise
the original string as a one-element list; a native array is kept; any
other field yields no entries. -/
def specRawImages (parse : String → Option Json) (imagesField : Option Json) :
    List Json :=
  match imagesField with
  | Option.none => []
  | some (Json.str s) =>
    match parse s with
    | some (Json.arr xs) => xs
    | some _ => [Json.str s]
    | Option.none => [Json.str s]
  | some (Json.arr xs) => xs
  | some _ => []

/-- Modelled from the spec, section 4.1, step 4 (amended): if the filtered
list is empty, fall back to the legacy image_url wrapped as a one-element
list when it is present and non-blank. -/
def specFallback (filtered : List String) (image_url : Option String) :
    List String :=
  if filtered.isEmpty then
    match image_url with
    | some u => if jsTrim u != "" then [u] else []
    | Option.none => []
  else filtered

/-- Modelled from the spec, section 4.1 (amended at step 4): the normalizer
contract in pipeline form; the result is undefined when no valid media
exists and is never an error. -/
def normalizeImagesSpec (parse : String → Option Json)
    (imagesField : Option Json) (image_url : Option String) :
    Option (List String) :=
  let final := specFallback
    ((specRawImages parse imagesField).filterMap specStrEntry) image_url
  if final.isEmpty then Option.none else some final

/-- A JSON.parse oracle that always fails, for concrete instances. -/
def noParse : String → Option Json := fun _ => Option.none

/-! ## Strict cart-display image picker (Cart page, getFirstImageUrl) -/

/-- The input shapes getFirstImageUrl receives for item.image_url. -/
inductive ImageData where
  | null
  | str (s : String)
  | arr (xs : List Json)

/-- The fixed allow-list of image extensions. -/
def validImageExts : List String :=
  [".jpg", ".jpeg", ".png", ".gif", ".webp", ".bmp", ".svg", ".avif"]

/-- isValidImage: the entry is a non-empty string whose lowercase form ends
with an allow-listed extension. -/
def isValidImage (j : Json) : Bool :=
  match j with
  | Json.str s => s != "" && validImageExts.any (fun e => jsEndsWith (jsToLower s) e)
  | _ => false

/-- The entry list getFirstImageUrl builds before filtering: a native array
as-is; a string is JSON-parsed, taking the array on success and otherwise
the original string as a one-element list; a falsy input yields nothing. -/
def urlsOf (parse : String → Option Json) (d : ImageData) : List Json :=
  match d with
  | ImageData.null => []
  | ImageData.str s =>
    if s == "" then []
    else
      match parse s with
      | some (Json.arr xs) => xs
      | some _ => [Json.str s]
      | Option.none => [Json.str s]
  | ImageData.arr xs => xs

/-- The strict helper of the Cart page: filter the entries to valid image
URLs and return the first one, or null. -/
def getFirstImageUrl (parse : String → Option Json) (d : ImageData) :
    Option String :=
  match d with
  | ImageData.null => Option.none
  | ImageData.str s =>
    if s == "" then Option.none
    else
      let urls : List Json :=
        match parse s with
        | some (Json.arr xs) => xs
        | some _ => [Json.str s]
        | Option.none => [Json.str s]
      let validImages := urls.filter isValidImage
      if 0 < validImages.length then validImages.head?.bind Json.asStr
      else Option.none
  | ImageData.arr xs =>
    let validImages := xs.filter isValidImage
    if 0 < validImages.length then validImages.head?.bind Json.asStr
    else Option.none

end Gadget
namespace Gadget

/-! ## General helper lemmas -/

/-- The head of a filtered list is the first element satisfying the
predicate. -/
theorem head?_filter_eq_find? {α : Type} (p : α → Bool) (l : List α) :
    (l.filter p).head? = l.find? p := by
  induction l with
  | nil => rfl
  | cons a t ih => by_cases h : p a <;> simp [List.filter_cons, List.find?_cons, h, ih]

/-- A valid image entry is a string entry. -/
theorem isValidImage_eq_true_iff (j : Json) :
    isValidImage j = true ↔
      ∃ s : String, j = Json.str s ∧ isValidImage (Json.str s) = true := by
  cases j <;> simp [isValidImage]

end Gadget

namespace Gadget

/-- C9 counterexample: with the pixel library loaded and the underlying
tracking call raising, fbqTrack propagates the error to its caller, so the
claim that any transport error is caught and discarded fails. -/
theorem fbqTrack_error_cex :
    fbqTrack (some fbqRaising) "AddToCart" [] =
      Except.error "transport failure" := rfl

/-- C9 (amended): the analytics emitter does not fail its caller when the
tracking library has not loaded (it no-ops with a warning) or when the
underlying call returns normally; an error raised by the underlying
tracking call is not caught and propagates to the caller. -/
theorem fbqTrack_amended (event : String) (props : List (String × String))
    (f : String → List (String × String) → Except String Unit) :
    fbqTrack Option.none event props =
        Except.ok (FbqOutcome.warned event props) ∧
      (∀ u : Unit, f event props = Except.ok u →
        fbqTrack (some f) event props =
          Except.ok (FbqOutcome.tracked event props)) ∧
      (∀ e : String, f event props = Except.error e →
        fbqTrack (some f) event props = Except.error e) := by
  refine ⟨rfl, ?_, ?_⟩
  · intro u h
    simp [fbqTrack, h]
  · intro e h
    simp [fbqTrack, h]

/-- C9 witness: the three behaviours at concrete inputs. -/
theorem fbqTrack_amended_witness :
    fbqTrack Option.none "Search" [] =
        Except.ok (FbqOutcome.warned "Search" []) ∧
      fbqTrack (some fbqNormal) "Search" [] =
        Except.ok (FbqOutcome.tracked "Search" []) ∧
      fbqTrack (some fbqRaising) "Search" [] =
        Except.error "transport failure" :=
  ⟨(fbqTrack_amended "Search" [] fbqNormal).1,
    (fbqTrack_amended "Search" [] fbqNormal).2.1 () rfl,
    (fbqTrack_amended "Search" [] fbqRaising).2.2 "transport failure" rfl⟩

/-- C7: the strict cart-display picker returns exactly the first entry of
the built URL list that is a valid image URL (none when no entry
qualifies), and any returned URL passes the extension allow-list, so a
video or otherwise non-allow-listed URL is never returned. -/
theorem getFirstImageUrl_spec (parse : String → Option Json) (d : ImageData) :
    getFirstImageUrl parse d =
        ((urlsOf parse d).find? isValidImage).bind Json.asStr ∧
      (∀ s : String, getFirstImageUrl parse d = some s →
        isValidImage (Json.str s) = true) ∧
      (getFirstImageUrl parse d = Option.none →
        ∀ j ∈ urlsOf parse d, isValidImage j = false) := by
  have hmain : getFirstImageUrl parse d =
      ((urlsOf parse d).find? isValidImage).bind Json.asStr := by
    have hbranch : ∀ xs : List Json,
        (if 0 < (xs.filter isValidImage).length then
            (xs.filter isValidImage).head?.bind Json.asStr
          else Option.none) =
          (xs.find? isValidImage).bind Json.asStr := by
      intro xs
      rw [← head?_filter_eq_find?]
      cases h : xs.filter isValidImage <;> simp [h]
    cases d with
    | null => rfl
    | str s =>
      by_cases hs : s == ""
      · simp [getFirstImageUrl, urlsOf, hs]
      · simp only [getFirstImageUrl, urlsOf, hs, Bool.false_eq_true, if_false]
        exact hbranch _
    | arr xs => exact hbranch xs
  refine ⟨hmain, ?_, ?_⟩
  · intro s hs
    rw [hmain] at hs
    cases hfind : (urlsOf parse d).find? isValidImage with
    | none => rw [hfind] at hs; simp at hs
    | some j =>
      rw [hfind] at hs
      have hval : isValidImage j = true := List.find?_some hfind
      cases j <;> simp [Json.asStr] at hs
      case str t => rw [← hs]; exact hval
  · intro hnone j hj
    rw [hmain] at hnone
    cases hfind : (urlsOf parse d).find? isValidImage with
    | none =>
      have := List.find?_eq_none.mp hfind j hj
      simpa using this
    | some jf =>
      have hval : isValidImage jf = true := List.find?_some hfind
      obtain ⟨s, rfl, _⟩ := (isValidImage_eq_true_iff jf).mp hval
      rw [hfind] at hnone
      simp [Json.asStr] at hnone

end Gadget
namespace Gadget

/-- C8: the page count is the ceiling of the item count divided by the
fixed page size 12 (characterized as the least page count covering all
items, so 0 items give 0 pages), and page p holds exactly the items at
positions (p-1)*12 through p*12-1 of the sorted list. -/
theorem pagination_spec {α : Type} (l : List α) (p : ℕ) (hp : 1 ≤ p) :
    l.length ≤ ITEMS_PER_PAGE * totalPages l.length ∧
      (∀ m : ℕ, l.length ≤ ITEMS_PER_PAGE * m → totalPages l.length ≤ m) ∧
      totalPages 0 = 0 ∧
      (∀ i : ℕ, (paginatedProducts l p)[i]? =
        if i < ITEMS_PER_PAGE then l[(p - 1) * ITEMS_PER_PAGE + i]? else none) := by
  have h12 : (0:ℚ) < 12 := by norm_num
  refine ⟨?_, ?_, ?_, ?_⟩
  · show l.length ≤ 12 * (⌈(l.length : ℚ) / ((12:ℕ) : ℚ)⌉).toNat
    have hle : ((l.length : ℚ) / 12) ≤ ((⌈(l.length : ℚ) / 12⌉ : ℤ) : ℚ) :=
      Int.le_ceil _
    have h1 : ((l.length : ℚ)) ≤ 12 * ((⌈(l.length : ℚ) / 12⌉ : ℤ) : ℚ) := by
      rw [div_le_iff₀ h12] at hle
      linarith
    have hc : (0:ℤ) ≤ ⌈(l.length : ℚ) / 12⌉ := Int.ceil_nonneg (by positivity)
    have h2 : ((l.length : ℕ) : ℤ) ≤ 12 * ⌈(l.length : ℚ) / 12⌉ := by
      exact_mod_cast h1
    push_cast
    omega
  · intro m hm
    show (⌈(l.length : ℚ) / ((12:ℕ) : ℚ)⌉).toNat ≤ m
    have h1 : ((l.length : ℚ)) ≤ 12 * (m : ℚ) := by exact_mod_cast hm
    have h2 : ((l.length : ℚ) / 12) ≤ ((m : ℤ) : ℚ) := by
      rw [div_le_iff₀ h12]
      push_cast
      linarith
    have hceil : ⌈(l.length : ℚ) / 12⌉ ≤ (m : ℤ) := Int.ceil_le.mpr h2
    push_cast
    omega
  · show (⌈(0 : ℚ) / ((12:ℕ) : ℚ)⌉).toNat = 0
    norm_num
  · intro i
    simp [paginatedProducts, List.getElem?_take, List.getElem?_drop]

end Gadget
namespace Gadget

/-- C8 witness: 25 items yield 3 pages and page 3 holds exactly the single
item at position 24. -/
theorem pagination_spec_witness :
    (1 ≤ 3 ∧
      ((List.range 25).length ≤
          ITEMS_PER_PAGE * totalPages (List.range 25).length ∧
        (∀ m : ℕ, (List.range 25).length ≤ ITEMS_PER_PAGE * m →
          totalPages (List.range 25).length ≤ m) ∧
        totalPages 0 = 0 ∧
        (∀ i : ℕ, (paginatedProducts (List.range 25) 3)[i]? =
          if i < ITEMS_PER_PAGE then
            (List.range 25)[(3 - 1) * ITEMS_PER_PAGE + i]?
          else none))) ∧
      totalPages 25 = 3 ∧ paginatedProducts (List.range 25) 3 = [24] := by
  refine ⟨⟨by norm_num, pagination_spec (List.range 25) 3 (by norm_num)⟩, ?_, by decide⟩
  show (⌈(25 : ℚ) / ((12:ℕ) : ℚ)⌉).toNat = 3
  have h : ⌈(25 : ℚ) / ((12:ℕ) : ℚ)⌉ = 3 := by
    rw [Int.ceil_eq_iff]
    norm_num
  rw [h]
  rfl

end Gadget
namespace Gadget

/-- A string with non-blank trim is itself non-empty, so the truthiness
test in the source's entry filters is redundant. -/
theorem truthy_and_trim (t : String) :
    (t != "" && jsTrim t != "") = (jsTrim t != "") := by
  by_cases h : t = ""
  · subst h
    decide
  · simp [h]

/-- The entry filter of fetchProducts agrees with the spec's step 3. -/
theorem strEntryOk_eq_specStrEntry : strEntryOk = specStrEntry := by
  funext j
  cases j with
  | str t => simp only [strEntryOk, specStrEntry, truthy_and_trim]
  | null => rfl
  | bool b => rfl
  | num q => rfl
  | arr xs => rfl

/-- The fallback and final blocks of the code agree with the spec's steps
4 and 5, identifying an undefined images value with an empty list. -/
theorem fallback_finalize_eq (images : Option (List String))
    (image_url : Option String) :
    finalizeImages (applyImageFallback images image_url) =
      (if (specFallback (images.getD []) image_url).isEmpty then Option.none
        else some (specFallback (images.getD []) image_url)) := by
  cases images with
  | none =>
    cases image_url with
    | none => simp [applyImageFallback, finalizeImages, specFallback]
    | some u =>
      by_cases hu : jsTrim u = ""
      · simp [applyImageFallback, finalizeImages, specFallback, truthy_and_trim, hu]
      · simp [applyImageFallback, finalizeImages, specFallback, truthy_and_trim, hu]
  | some l =>
    cases l with
    | nil =>
      cases image_url with
      | none => simp [applyImageFallback, finalizeImages, specFallback]
      | some u =>
        by_cases hu : jsTrim u = ""
        · simp [applyImageFallback, finalizeImages, specFallback, truthy_and_trim, hu]
        · simp [applyImageFallback, finalizeImages, specFallback, truthy_and_trim, hu]
    | cons a t =>
      simp [applyImageFallback, finalizeImages, specFallback]

/-- The raw images value of the code corresponds to the spec's raw entry
list after filtering, identifying undefined with the empty list. -/
theorem rawImagesCode_getD (parse : String → Option Json)
    (imagesField : Option Json) :
    (rawImagesCode parse imagesField).getD [] =
      (specRawImages parse imagesField).filterMap specStrEntry := by
  cases imagesField with
  | none => rfl
  | some j =>
    cases j with
    | str s =>
      cases hp : parse s with
      | none =>
        by_cases hs : jsTrim s = ""
        · simp [rawImagesCode, specRawImages, specStrEntry, hp, truthy_and_trim, hs]
        · simp [rawImagesCode, specRawImages, specStrEntry, hp, truthy_and_trim, hs]
      | some pj =>
        by_cases hs : jsTrim s = "" <;>
          cases pj <;>
            simp [rawImagesCode, specRawImages, specStrEntry, hp,
              strEntryOk_eq_specStrEntry, truthy_and_trim, hs,
              List.filter_cons, List.filterMap_cons]
    | arr xs => simp [rawImagesCode, specRawImages, strEntryOk_eq_specStrEntry]
    | null => rfl
    | bool b => rfl
    | num q => rfl

/-- C6 (amended): the catalog image normalizer equals, for every parse
oracle, images field and legacy URL, the spec's pipeline with the fallback
condition amended from non-empty to non-blank. -/
theorem normalizeImages_eq_spec (parse : String → Option Json)
    (imagesField : Option Json) (image_url : Option String) :
    normalizeImagesCode parse imagesField image_url =
      normalizeImagesSpec parse imagesField image_url := by
  unfold normalizeImagesCode normalizeImagesSpec
  rw [fallback_finalize_eq, rawImagesCode_getD]

/-- C6 counterexample: a whitespace-only legacy image_url is present and
non-empty, yet the normalizer does not use it as a one-element fallback
list; it yields no media instead. -/
theorem normalizeImages_blank_url_cex :
    normalizeImagesCode noParse Option.none (some " ") = Option.none ∧
      " " ≠ "" ∧
      normalizeImagesCode noParse Option.none (some " ") ≠ some [" "] := by
  refine ⟨by decide, by decide, by decide⟩

end Gadget
namespace Gadget

/-! ## Checkout helper lemmas -/

theorem mem_existingProducts {items : List CartItem} {db : List ProductRow}
    {p : ProductRow} (hp : p ∈ db) (hid : ∃ i ∈ items, i.id = p.id) :
    p ∈ existingProducts items db := by
  refine List.mem_filter.mpr ⟨hp, ?_⟩
  obtain ⟨i, hi, hidq⟩ := hid
  exact List.elem_iff.mpr (List.mem_map.mpr ⟨i, hi, hidq⟩)

theorem existingProducts_mem_db {items : List CartItem} {db : List ProductRow}
    {p : ProductRow} (hp : p ∈ existingProducts items db) : p ∈ db :=
  (List.mem_filter.mp hp).1

theorem missingItems_eq_nil {items : List CartItem} {db : List ProductRow}
    (hpresent : ∀ i ∈ items, ∃ p ∈ db, p.id = i.id) :
    missingItems items db = [] := by
  apply List.filter_eq_nil_iff.mpr
  intro i hi
  obtain ⟨p, hpdb, hpid⟩ := hpresent i hi
  have hpm : p ∈ existingProducts items db :=
    mem_existingProducts hpdb ⟨i, hi, hpid.symm⟩
  simp
  exact ⟨p, hpm, hpid⟩

theorem handleSubmit_reaches_stock {items : List CartItem} {fd : FormData}
    {charges : DeliveryCharges} {db : List ProductRow} {flags : BackendFlags}
    (hne : items ≠ []) (hval : items.any invalidLine = false)
    (hname : jsTrim fd.name ≠ "") (hph : jsTrim fd.phone ≠ "")
    (hphOk : phoneOk (jsTrim fd.phone) = true) (haddr : jsTrim fd.address ≠ "")
    (hfetch : flags.productsFetchError = false)
    (hpresent : ∀ i ∈ items, ∃ p ∈ db, p.id = i.id) :
    handleSubmit items fd charges db flags =
      stockAndSubmit items fd charges db flags := by
  have b1 : items.isEmpty = false := by
    cases items with
    | nil => exact absurd rfl hne
    | cons a t => rfl
  have b3 : ((jsTrim fd.name) == "") = false := beq_eq_false_iff_ne.mpr hname
  have b4 : ((jsTrim fd.phone) == "") = false := beq_eq_false_iff_ne.mpr hph
  have b5 : (!phoneOk (jsTrim fd.phone)) = false := by rw [hphOk]; rfl
  have b6 : ((jsTrim fd.address) == "") = false := beq_eq_false_iff_ne.mpr haddr
  unfold handleSubmit
  simp [b1, hval, b3, b4, b5, b6, hfetch, missingItems_eq_nil hpresent, ite_self]

theorem find?_existingProducts {items : List CartItem} {db : List ProductRow}
    {i : CartItem} {p : ProductRow}
    (hnodup : (db.map ProductRow.id).Nodup)
    (hi : i ∈ items) (hpdb : p ∈ db) (hpid : p.id = i.id) :
    (existingProducts items db).find? (fun q => q.id == i.id) = some p := by
  have hpm : p ∈ existingProducts items db :=
    mem_existingProducts hpdb ⟨i, hi, hpid.symm⟩
  have hsome : ((existingProducts items db).find?
      (fun q => q.id == i.id)).isSome :=
    List.find?_isSome.mpr ⟨p, hpm, by simp [hpid]⟩
  obtain ⟨q, hq⟩ := Option.isSome_iff_exists.mp hsome
  have hqid : q.id = i.id := by simpa using List.find?_some hq
  have hqdb : q ∈ db := existingProducts_mem_db (List.mem_of_find?_eq_some hq)
  have hqp : q = p :=
    List.inj_on_of_nodup_map hnodup hqdb hpdb (hqid.trans hpid.symm)
  rw [hq, hqp]

theorem outOfStockItems_eq_nil {items : List CartItem} {db : List ProductRow}
    (hstock : ∀ i ∈ items, ∀ p ∈ db, p.id = i.id → i.quantity ≤ p.stock) :
    outOfStockItems items db = [] := by
  apply List.filterMap_eq_nil_iff.mpr
  intro i hi
  cases hfind : (existingProducts items db).find? (fun q => q.id == i.id) with
  | none => simp [hfind]
  | some q =>
    have hqid : q.id = i.id := by simpa using List.find?_some hfind
    have hqdb : q ∈ db := existingProducts_mem_db (List.mem_of_find?_eq_some hfind)
    have hle := hstock i hi q hqdb hqid
    simp [hfind, not_lt.mpr hle]

theorem stockAndSubmit_eq_submitOrders {items : List CartItem} {fd : FormData}
    {charges : DeliveryCharges} {db : List ProductRow} {flags : BackendFlags}
    (hstock : ∀ i ∈ items, ∀ p ∈ db, p.id = i.id → i.quantity ≤ p.stock) :
    stockAndSubmit items fd charges db flags =
      submitOrders items fd charges db flags := by
  unfold stockAndSubmit
  simp [outOfStockItems_eq_nil hstock]

theorem orderItemsOf_all {items : List CartItem} {db : List ProductRow}
    {oid : String}
    (hpresent : ∀ i ∈ items, ∃ p ∈ db, p.id = i.id) :
    orderItemsOf items db oid =
      items.map (fun i => OrderItemRow.mk oid i.id i.quantity (round2 i.price)) := by
  unfold orderItemsOf
  have hfull : (items.filter fun i =>
      (existingProducts items db).any fun p => p.id == i.id) = items := by
    apply List.filter_eq_self.mpr
    intro i hi
    obtain ⟨p, hpdb, hpid⟩ := hpresent i hi
    exact List.any_eq_true.mpr
      ⟨p, mem_existingProducts hpdb ⟨i, hi, hpid.symm⟩, by simp [hpid]⟩
  rw [hfull]

theorem isEmpty_false_of_ne_nil {α : Type} {l : List α} (h : l ≠ []) :
    l.isEmpty = false := by
  cases l with
  | nil => exact absurd rfl h
  | cons a t => rfl

/-- C1: when validation reaches the stock check (non-empty valid cart,
valid contact info, fetch succeeded, every cart product id present among
the fetched rows) and some line requests more than the live stock, the
checkout rejects with an out-of-stock error listing exactly the
insufficient lines by product name and available stock, inserts no order
or order-item rows, and leaves the Cart Store unchanged. -/
theorem checkout_out_of_stock (items : List CartItem) (fd : FormData)
    (charges : DeliveryCharges) (db : List ProductRow) (flags : BackendFlags)
    (hne : items ≠ []) (hval : items.any invalidLine = false)
    (hname : jsTrim fd.name ≠ "") (hph : jsTrim fd.phone ≠ "")
    (hphOk : phoneOk (jsTrim fd.phone) = true) (haddr : jsTrim fd.address ≠ "")
    (hfetch : flags.productsFetchError = false)
    (hnodup : (db.map ProductRow.id).Nodup)
    (hpresent : ∀ i ∈ items, ∃ p ∈ db, p.id = i.id)
    (hshort : ∃ i ∈ items, ∃ p ∈ db, p.id = i.id ∧ p.stock < i.quantity) :
    ∃ L, handleSubmit items fd charges db flags =
        SubmitResult.mk (Except.error (SubmitError.outOfStock L)) items [] [] ∧
      L ≠ [] ∧
      (∀ ns ∈ L, ∃ i ∈ items, ∃ p ∈ db,
        p.id = i.id ∧ p.stock < i.quantity ∧ ns = (p.name, p.stock)) ∧
      (∀ i ∈ items, ∀ p ∈ db, p.id = i.id → p.stock < i.quantity →
        (p.name, p.stock) ∈ L) := by
  obtain ⟨i0, hi0, p0, hp0db, hp0id, hp0lt⟩ := hshort
  have hmem0 : (p0.name, p0.stock) ∈ outOfStockItems items db := by
    refine List.mem_filterMap.mpr ⟨i0, hi0, ?_⟩
    rw [find?_existingProducts hnodup hi0 hp0db hp0id]
    simp [hp0lt]
  have hb : (outOfStockItems items db).isEmpty = false :=
    isEmpty_false_of_ne_nil (List.ne_nil_of_mem hmem0)
  have hres : handleSubmit items fd charges db flags =
      SubmitResult.mk
        (Except.error (SubmitError.outOfStock (outOfStockItems items db)))
        items [] [] := by
    rw [handleSubmit_reaches_stock hne hval hname hph hphOk haddr hfetch hpresent]
    unfold stockAndSubmit
    simp [hb]
  refine ⟨outOfStockItems items db, hres, List.ne_nil_of_mem hmem0, ?_, ?_⟩
  · intro ns hns
    obtain ⟨i, hi, hf⟩ := List.mem_filterMap.mp hns
    cases hfind : (existingProducts items db).find? (fun q => q.id == i.id) with
    | none => rw [hfind] at hf; simp at hf
    | some q =>
      rw [hfind] at hf
      have hqid : q.id = i.id := by simpa using List.find?_some hfind
      have hqdb : q ∈ db :=
        existingProducts_mem_db (List.mem_of_find?_eq_some hfind)
      by_cases hlt : q.stock < i.quantity
      · simp [hlt] at hf
        exact ⟨i, hi, q, hqdb, hqid, hlt, hf.symm⟩
      · simp [hlt] at hf
  · intro i hi p hpdb hpid hlt
    refine List.mem_filterMap.mpr ⟨i, hi, ?_⟩
    rw [find?_existingProducts hnodup hi hpdb hpid]
    simp [hlt]

/-- C1 witness: cart with product A (stock 5) quantity 3 and product B
(stock 2) quantity 3 rejects naming B only, leaving cart and tables
untouched. -/
theorem checkout_out_of_stock_witness :
    ([CartItem.mk "A" "A" 100 3, CartItem.mk "B" "B" 50 3] ≠
        ([] : List CartItem)) ∧
      (∃ L, handleSubmit
          [CartItem.mk "A" "A" 100 3, CartItem.mk "B" "B" 50 3]
          (FormData.mk "x" "017" "addr" LocationType.inside_dhaka)
          (DeliveryCharges.mk 60 120)
          [ProductRow.mk "A" "A" 5 100, ProductRow.mk "B" "B" 2 50]
          (BackendFlags.mk false false "oid1" false) =
          SubmitResult.mk (Except.error (SubmitError.outOfStock L))
            [CartItem.mk "A" "A" 100 3, CartItem.mk "B" "B" 50 3] [] [] ∧
        L ≠ [] ∧
        (∀ ns ∈ L, ∃ i ∈ [CartItem.mk "A" "A" 100 3, CartItem.mk "B" "B" 50 3],
          ∃ p ∈ [ProductRow.mk "A" "A" 5 100, ProductRow.mk "B" "B" 2 50],
          p.id = i.id ∧ p.stock < i.quantity ∧ ns = (p.name, p.stock)) ∧
        (∀ i ∈ [CartItem.mk "A" "A" 100 3, CartItem.mk "B" "B" 50 3],
          ∀ p ∈ [ProductRow.mk "A" "A" 5 100, ProductRow.mk "B" "B" 2 50],
          p.id = i.id → p.stock < i.quantity → (p.name, p.stock) ∈ L)) :=
  ⟨by decide,
    checkout_out_of_stock
      [CartItem.mk "A" "A" 100 3, CartItem.mk "B" "B" 50 3]
      (FormData.mk "x" "017" "addr" LocationType.inside_dhaka)
      (DeliveryCharges.mk 60 120)
      [ProductRow.mk "A" "A" 5 100, ProductRow.mk "B" "B" 2 50]
      (BackendFlags.mk false false "oid1" false)
      (by decide) (by decide) (by decide) (by decide) (by decide) (by decide)
      (by decide) (by decide) (by decide) (by decide)⟩

theorem contains_existing_eq {items : List CartItem} {db : List ProductRow}
    {i : CartItem} (hi : i ∈ items) :
    ((existingProducts items db).map ProductRow.id).contains i.id =
      (db.map ProductRow.id).contains i.id := by
  by_cases hc : ∃ p ∈ db, p.id = i.id
  · obtain ⟨p, hpdb, hpid⟩ := hc
    have h1 : i.id ∈ (existingProducts items db).map ProductRow.id :=
      List.mem_map.mpr ⟨p, mem_existingProducts hpdb ⟨i, hi, hpid.symm⟩, hpid⟩
    have h2 : i.id ∈ db.map ProductRow.id := List.mem_map.mpr ⟨p, hpdb, hpid⟩
    rw [show ((existingProducts items db).map ProductRow.id).contains i.id =
        true from List.elem_iff.mpr h1,
      show (db.map ProductRow.id).contains i.id = true from
        List.elem_iff.mpr h2]
  · have h2 : i.id ∉ db.map ProductRow.id := by
      intro hmem
      obtain ⟨p, hpdb, hpid⟩ := List.mem_map.mp hmem
      exact hc ⟨p, hpdb, hpid⟩
    have h1 : i.id ∉ (existingProducts items db).map ProductRow.id := by
      intro hmem
      obtain ⟨p, hpE, hpid⟩ := List.mem_map.mp hmem
      exact hc ⟨p, existingProducts_mem_db hpE, hpid⟩
    have e1 : ((existingProducts items db).map ProductRow.id).contains i.id = false := by
      rw [Bool.eq_false_iff]
      intro habs
      exact h1 (List.elem_iff.mp habs)
    have e2 : (db.map ProductRow.id).contains i.id = false := by
      rw [Bool.eq_false_iff]
      intro habs
      exact h2 (List.elem_iff.mp habs)
    rw [e1, e2]

theorem missingItems_eq_filter_db {items : List CartItem}
    {db : List ProductRow} :
    missingItems items db =
      items.filter (fun i => !((db.map ProductRow.id).contains i.id)) := by
  unfold missingItems
  apply List.filter_congr
  intro i hi
  rw [contains_existing_eq hi]

theorem existing_length_lt {items : List CartItem} {db : List ProductRow}
    (hnodup : (db.map ProductRow.id).Nodup)
    (hmiss : ∃ i ∈ items, ∀ p ∈ db, p.id ≠ i.id) :
    (existingProducts items db).length < items.length := by
  classical
  obtain ⟨i0, hi0, hm⟩ := hmiss
  have hEsub : (existingProducts items db).Sublist db := List.filter_sublist db
  have hnodupE : ((existingProducts items db).map ProductRow.id).Nodup :=
    List.Nodup.sublist (hEsub.map ProductRow.id) hnodup
  have hsubF : ((existingProducts items db).map ProductRow.id).toFinset ⊆
      ((items.map CartItem.id).toFinset).erase i0.id := by
    intro x hx
    obtain ⟨p, hpE, hpx⟩ := List.mem_map.mp (List.mem_toFinset.mp hx)
    have hpdb : p ∈ db := existingProducts_mem_db hpE
    have hxitems : x ∈ items.map CartItem.id := by
      have hcont := (List.mem_filter.mp hpE).2
      rw [← hpx]
      exact List.elem_iff.mp hcont
    have hxne : x ≠ i0.id := by
      rw [← hpx]
      exact hm p hpdb
    exact Finset.mem_erase.mpr ⟨hxne, List.mem_toFinset.mpr hxitems⟩
  have hi0mem : i0.id ∈ (items.map CartItem.id).toFinset :=
    List.mem_toFinset.mpr (List.mem_map.mpr ⟨i0, hi0, rfl⟩)
  have h1 : (existingProducts items db).length =
      ((existingProducts items db).map ProductRow.id).toFinset.card := by
    rw [List.toFinset_card_of_nodup hnodupE, List.length_map]
  have h2 : ((existingProducts items db).map ProductRow.id).toFinset.card ≤
      ((items.map CartItem.id).toFinset).card - 1 := by
    calc ((existingProducts items db).map ProductRow.id).toFinset.card ≤
        (((items.map CartItem.id).toFinset).erase i0.id).card :=
          Finset.card_le_card hsubF
      _ = ((items.map CartItem.id).toFinset).card - 1 :=
          Finset.card_erase_of_mem hi0mem
  have h3 : ((items.map CartItem.id).toFinset).card ≤ items.length := by
    calc ((items.map CartItem.id).toFinset).card ≤
        (items.map CartItem.id).length := List.toFinset_card_le _
      _ = items.length := List.length_map _ _
  have h4 : 1 ≤ ((items.map CartItem.id).toFinset).card :=
    Finset.card_pos.mpr ⟨i0.id, hi0mem⟩
  omega

theorem foldl_removeItem (ms : List CartItem) (c : List CartItem) :
    ms.foldl (fun acc m => removeItem acc m.id) c =
      c.filter (fun i => ms.all (fun m => i.id != m.id)) := by
  induction ms generalizing c with
  | nil => simp
  | cons m ms ih =>
    rw [List.foldl_cons, ih]
    unfold removeItem
    rw [List.filter_filter]
    apply List.filter_congr
    intro x hx
    simp [List.all_cons, Bool.and_comm]

theorem removed_missing_eq_filter {items : List CartItem}
    {db : List ProductRow} :
    (missingItems items db).foldl (fun c m => removeItem c m.id) items =
      items.filter (fun i => (db.map ProductRow.id).contains i.id) := by
  rw [foldl_removeItem]
  apply List.filter_congr
  intro i hi
  by_cases hc : i.id ∈ db.map ProductRow.id
  · have hall : (missingItems items db).all (fun m => i.id != m.id) = true := by
      apply List.all_eq_true.mpr
      intro m hmM
      have hmf := List.mem_filter.mp hmM
      have hmc : ((db.map ProductRow.id).contains m.id) = false := by
        rw [← contains_existing_eq hmf.1]
        have hb := hmf.2
        rw [Bool.not_eq_true'] at hb
        exact hb
      have hne : i.id ≠ m.id := by
        intro he
        rw [he] at hc
        rw [Bool.eq_false_iff] at hmc
        exact hmc (List.elem_iff.mpr hc)
      simp [hne]
    rw [hall,
      show (db.map ProductRow.id).contains i.id = true from List.elem_iff.mpr hc]
  · have hcb : ((db.map ProductRow.id).contains i.id) = false := by
      rw [Bool.eq_false_iff]
      intro habs
      exact hc (List.elem_iff.mp habs)
    have hmem : i ∈ missingItems items db := by
      refine List.mem_filter.mpr ⟨hi, ?_⟩
      rw [contains_existing_eq hi, hcb]
      rfl
    have hallf : (missingItems items db).all (fun m => i.id != m.id) = false := by
      rw [Bool.eq_false_iff]
      intro hall
      have := List.all_eq_true.mp hall i hmem
      simp at this
    rw [hallf, hcb]

/-- C2: when some cart product id is absent from the live catalog (so the
fetched row set is smaller than the cart), the checkout rejects with a
products-unavailable error listing the missing lines by name, removes
exactly those lines from the Cart Store as a side effect, and inserts no
order or order-item rows. -/
theorem checkout_products_unavailable (items : List CartItem) (fd : FormData)
    (charges : DeliveryCharges) (db : List ProductRow) (flags : BackendFlags)
    (hne : items ≠ []) (hval : items.any invalidLine = false)
    (hname : jsTrim fd.name ≠ "") (hph : jsTrim fd.phone ≠ "")
    (hphOk : phoneOk (jsTrim fd.phone) = true) (haddr : jsTrim fd.address ≠ "")
    (hfetch : flags.productsFetchError = false)
    (hnodup : (db.map ProductRow.id).Nodup)
    (hmiss : ∃ i ∈ items, ∀ p ∈ db, p.id ≠ i.id) :
    handleSubmit items fd charges db flags =
      SubmitResult.mk
        (Except.error (SubmitError.productsUnavailable
          ((items.filter
            (fun i => !((db.map ProductRow.id).contains i.id))).map
            CartItem.name)))
        (items.filter (fun i => (db.map ProductRow.id).contains i.id)) [] [] := by
  have b1 : items.isEmpty = false := isEmpty_false_of_ne_nil hne
  have b3 : ((jsTrim fd.name) == "") = false := beq_eq_false_iff_ne.mpr hname
  have b4 : ((jsTrim fd.phone) == "") = false := beq_eq_false_iff_ne.mpr hph
  have b5 : (!phoneOk (jsTrim fd.phone)) = false := by rw [hphOk]; rfl
  have b6 : ((jsTrim fd.address) == "") = false := beq_eq_false_iff_ne.mpr haddr
  have hlen : ((existingProducts items db).length != items.length) = true := by
    exact bne_iff_ne.mpr (Nat.ne_of_lt (existing_length_lt hnodup hmiss))
  have hmne : missingItems items db ≠ [] := by
    obtain ⟨i0, hi0, hm⟩ := hmiss
    have hcb : ((db.map ProductRow.id).contains i0.id) = false := by
      rw [Bool.eq_false_iff]
      intro habs
      obtain ⟨p, hpdb, hpid⟩ := List.mem_map.mp (List.elem_iff.mp habs)
      exact hm p hpdb hpid
    have : i0 ∈ missingItems items db := by
      refine List.mem_filter.mpr ⟨hi0, ?_⟩
      rw [contains_existing_eq hi0, hcb]
      rfl
    exact List.ne_nil_of_mem this
  have hmb : (missingItems items db).isEmpty = false :=
    isEmpty_false_of_ne_nil hmne
  unfold handleSubmit
  simp only [b1, hval, b3, b4, b5, b6, hfetch, hlen, hmb, Bool.false_eq_true,
    if_false, Bool.not_false, if_true, Bool.true_eq_false, Bool.not_true]
  rw [removed_missing_eq_filter, missingItems_eq_filter_db]

theorem handleSubmit_eq_submitOrders {items : List CartItem} {fd : FormData}
    {charges : DeliveryCharges} {db : List ProductRow} {flags : BackendFlags}
    (hne : items ≠ []) (hval : items.any invalidLine = false)
    (hname : jsTrim fd.name ≠ "") (hph : jsTrim fd.phone ≠ "")
    (hphOk : phoneOk (jsTrim fd.phone) = true) (haddr : jsTrim fd.address ≠ "")
    (hfetch : flags.productsFetchError = false)
    (hpresent : ∀ i ∈ items, ∃ p ∈ db, p.id = i.id)
    (hstock : ∀ i ∈ items, ∀ p ∈ db, p.id = i.id → i.quantity ≤ p.stock) :
    handleSubmit items fd charges db flags =
      submitOrders items fd charges db flags := by
  rw [handleSubmit_reaches_stock hne hval hname hph hphOk haddr hfetch hpresent]
  exact stockAndSubmit_eq_submitOrders hstock

theorem orderItemsOf_ne_nil {items : List CartItem} {db : List ProductRow}
    {oid : String} (hne : items ≠ [])
    (hpresent : ∀ i ∈ items, ∃ p ∈ db, p.id = i.id) :
    (orderItemsOf items db oid).isEmpty = false := by
  rw [orderItemsOf_all hpresent]
  apply isEmpty_false_of_ne_nil
  intro h
  exact hne (List.map_eq_nil_iff.mp h)

/-- C3: when the order insert succeeds (returning an id) but the
order-items insert fails, the compensating delete removes the just-created
order row, so no order or order-item rows remain, the Cart Store is
untouched, and the submission reports the items-insert failure. -/
theorem checkout_compensating_delete (items : List CartItem) (fd : FormData)
    (charges : DeliveryCharges) (db : List ProductRow) (flags : BackendFlags)
    (hne : items ≠ []) (hval : items.any invalidLine = false)
    (hname : jsTrim fd.name ≠ "") (hph : jsTrim fd.phone ≠ "")
    (hphOk : phoneOk (jsTrim fd.phone) = true) (haddr : jsTrim fd.address ≠ "")
    (hfetch : flags.productsFetchError = false)
    (hpresent : ∀ i ∈ items, ∃ p ∈ db, p.id = i.id)
    (hstock : ∀ i ∈ items, ∀ p ∈ db, p.id = i.id → i.quantity ≤ p.stock)
    (horder : flags.orderInsertError = false) (hoid : flags.orderId ≠ "")
    (hitems : flags.itemsInsertError = true) :
    handleSubmit items fd charges db flags =
      SubmitResult.mk (Except.error SubmitError.itemsInsertFailed)
        items [] [] := by
  rw [handleSubmit_eq_submitOrders hne hval hname hph hphOk haddr hfetch
    hpresent hstock]
  unfold submitOrders
  have hb : (flags.orderId == "") = false := beq_eq_false_iff_ne.mpr hoid
  simp [horder, hb, hitems, orderItemsOf_ne_nil hne hpresent]

/-- C4: on a fully successful submission, exactly one order row is
inserted, carrying the trimmed contact fields, pending status and the
two-decimal rounding of the line-subtotal sum plus the location delivery
charge; the Cart Store is cleared and the new order id is exposed as the
outcome. -/
theorem checkout_success_order (items : List CartItem) (fd : FormData)
    (charges : DeliveryCharges) (db : List ProductRow) (flags : BackendFlags)
    (hne : items ≠ []) (hval : items.any invalidLine = false)
    (hname : jsTrim fd.name ≠ "") (hph : jsTrim fd.phone ≠ "")
    (hphOk : phoneOk (jsTrim fd.phone) = true) (haddr : jsTrim fd.address ≠ "")
    (hfetch : flags.productsFetchError = false)
    (hpresent : ∀ i ∈ items, ∃ p ∈ db, p.id = i.id)
    (hstock : ∀ i ∈ items, ∀ p ∈ db, p.id = i.id → i.quantity ≤ p.stock)
    (horder : flags.orderInsertError = false) (hoid : flags.orderId ≠ "")
    (hitems : flags.itemsInsertError = false) :
    (handleSubmit items fd charges db flags).orders =
        [OrderRow.mk flags.orderId (jsTrim fd.name) (jsTrim fd.phone)
          (jsTrim fd.address) fd.location
          (round2 (totalPrice items + deliveryCharge charges fd.location))
          "pending"] ∧
      (handleSubmit items fd charges db flags).cart = [] ∧
      (handleSubmit items fd charges db flags).outcome =
        Except.ok flags.orderId := by
  rw [handleSubmit_eq_submitOrders hne hval hname hph hphOk haddr hfetch
    hpresent hstock]
  unfold submitOrders
  have hb : (flags.orderId == "") = false := beq_eq_false_iff_ne.mpr hoid
  simp [horder, hb, hitems, orderItemsOf_ne_nil hne hpresent, newOrderRow,
    finalTotal]

/-- C5: on a fully successful submission, one order-item row is inserted
per cart line, recording the new order id, the product id and quantity of
the line, and its snapshot price rounded to two decimals. -/
theorem checkout_success_order_items (items : List CartItem) (fd : FormData)
    (charges : DeliveryCharges) (db : List ProductRow) (flags : BackendFlags)
    (hne : items ≠ []) (hval : items.any invalidLine = false)
    (hname : jsTrim fd.name ≠ "") (hph : jsTrim fd.phone ≠ "")
    (hphOk : phoneOk (jsTrim fd.phone) = true) (haddr : jsTrim fd.address ≠ "")
    (hfetch : flags.productsFetchError = false)
    (hpresent : ∀ i ∈ items, ∃ p ∈ db, p.id = i.id)
    (hstock : ∀ i ∈ items, ∀ p ∈ db, p.id = i.id → i.quantity ≤ p.stock)
    (horder : flags.orderInsertError = false) (hoid : flags.orderId ≠ "")
    (hitems : flags.itemsInsertError = false) :
    (handleSubmit items fd charges db flags).orderItems =
        items.map (fun i =>
          OrderItemRow.mk flags.orderId i.id i.quantity (round2 i.price)) ∧
      (handleSubmit items fd charges db flags).orderItems.length =
        items.length := by
  rw [handleSubmit_eq_submitOrders hne hval hname hph hphOk haddr hfetch
    hpresent hstock]
  unfold submitOrders
  have hb : (flags.orderId == "") = false := beq_eq_false_iff_ne.mpr hoid
  simp [horder, hb, hitems, orderItemsOf_ne_nil hne hpresent,
    orderItemsOf_all hpresent, hne]

/-- C10: once a submission reaches the order-items construction (cart
non-empty and every cart product id among the fetched rows), the built
list has one entry per cart line, hence is non-empty, and the
zero-valid-items compensating-delete branch is never taken. -/
theorem order_items_construction_total (items : List CartItem) (fd : FormData)
    (charges : DeliveryCharges) (db : List ProductRow) (flags : BackendFlags)
    (hne : items ≠ []) (hval : items.any invalidLine = false)
    (hname : jsTrim fd.name ≠ "") (hph : jsTrim fd.phone ≠ "")
    (hphOk : phoneOk (jsTrim fd.phone) = true) (haddr : jsTrim fd.address ≠ "")
    (hfetch : flags.productsFetchError = false)
    (hpresent : ∀ i ∈ items, ∃ p ∈ db, p.id = i.id)
    (hstock : ∀ i ∈ items, ∀ p ∈ db, p.id = i.id → i.quantity ≤ p.stock)
    (horder : flags.orderInsertError = false) (hoid : flags.orderId ≠ "") :
    orderItemsOf items db flags.orderId =
        items.map (fun i =>
          OrderItemRow.mk flags.orderId i.id i.quantity (round2 i.price)) ∧
      (orderItemsOf items db flags.orderId).length = items.length ∧
      orderItemsOf items db flags.orderId ≠ [] ∧
      (handleSubmit items fd charges db flags).outcome ≠
        Except.error SubmitError.noValidItems := by
  refine ⟨orderItemsOf_all hpresent, ?_, ?_, ?_⟩
  · rw [orderItemsOf_all hpresent, List.length_map]
  · rw [orderItemsOf_all hpresent]
    intro h
    exact hne (List.map_eq_nil_iff.mp h)
  · rw [handleSubmit_eq_submitOrders hne hval hname hph hphOk haddr hfetch
      hpresent hstock]
    unfold submitOrders
    have hb : (flags.orderId == "") = false := beq_eq_false_iff_ne.mpr hoid
    cases hflag : flags.itemsInsertError <;>
      simp [horder, hb, hflag, orderItemsOf_ne_nil hne hpresent]

/-- C2 witness: a cart holding products A and C while only A exists in the
catalog rejects naming C, and the C line is removed from the cart. -/
theorem checkout_products_unavailable_witness :
    ([CartItem.mk "A" "A" 100 1, CartItem.mk "C" "C" 5 1] ≠
        ([] : List CartItem)) ∧
      handleSubmit [CartItem.mk "A" "A" 100 1, CartItem.mk "C" "C" 5 1]
        (FormData.mk "x" "017" "addr" LocationType.inside_dhaka)
        (DeliveryCharges.mk 60 120) [ProductRow.mk "A" "A" 5 100]
        (BackendFlags.mk false false "oid1" false) =
        SubmitResult.mk
          (Except.error (SubmitError.productsUnavailable ["C"]))
          [CartItem.mk "A" "A" 100 1] [] [] := by
  constructor
  · decide
  · rw [checkout_products_unavailable
      [CartItem.mk "A" "A" 100 1, CartItem.mk "C" "C" 5 1]
      (FormData.mk "x" "017" "addr" LocationType.inside_dhaka)
      (DeliveryCharges.mk 60 120) [ProductRow.mk "A" "A" 5 100]
      (BackendFlags.mk false false "oid1" false)
      (by decide) (by decide) (by decide) (by decide) (by decide) (by decide)
      (by decide) (by decide) (by decide)]
    rfl

/-- C3 witness: order insert succeeds, order-items insert fails; the
result reports the failure with no remaining rows and an untouched cart. -/
theorem checkout_compensating_delete_witness :
    ((BackendFlags.mk false false "oid1" true).itemsInsertError = true) ∧
      handleSubmit [CartItem.mk "A" "A" 100 3]
        (FormData.mk "x" "017" "addr" LocationType.inside_dhaka)
        (DeliveryCharges.mk 60 120) [ProductRow.mk "A" "A" 5 100]
        (BackendFlags.mk false false "oid1" true) =
        SubmitResult.mk (Except.error SubmitError.itemsInsertFailed)
          [CartItem.mk "A" "A" 100 3] [] [] :=
  ⟨rfl,
    checkout_compensating_delete [CartItem.mk "A" "A" 100 3]
      (FormData.mk "x" "017" "addr" LocationType.inside_dhaka)
      (DeliveryCharges.mk 60 120) [ProductRow.mk "A" "A" 5 100]
      (BackendFlags.mk false false "oid1" true)
      (by decide) (by decide) (by decide) (by decide) (by decide) (by decide)
      (by decide) (by decide) (by decide) (by decide) (by decide) (by decide)⟩

/-- C4 witness: a successful submission of one line (price 100, quantity
3, inside-Dhaka delivery 60) inserts one pending order totalling 360,
clears the cart and exposes the order id. -/
theorem checkout_success_order_witness :
    round2 (totalPrice [CartItem.mk "A" "A" 100 3] +
        deliveryCharge (DeliveryCharges.mk 60 120)
          LocationType.inside_dhaka) = 360 ∧
      ((handleSubmit [CartItem.mk "A" "A" 100 3]
          (FormData.mk "x" "017" "addr" LocationType.inside_dhaka)
          (DeliveryCharges.mk 60 120) [ProductRow.mk "A" "A" 5 100]
          (BackendFlags.mk false false "oid1" false)).orders =
        [OrderRow.mk "oid1" (jsTrim "x") (jsTrim "017") (jsTrim "addr")
          LocationType.inside_dhaka
          (round2 (totalPrice [CartItem.mk "A" "A" 100 3] +
            deliveryCharge (DeliveryCharges.mk 60 120)
              LocationType.inside_dhaka))
          "pending"] ∧
      (handleSubmit [CartItem.mk "A" "A" 100 3]
          (FormData.mk "x" "017" "addr" LocationType.inside_dhaka)
          (DeliveryCharges.mk 60 120) [ProductRow.mk "A" "A" 5 100]
          (BackendFlags.mk false false "oid1" false)).cart = [] ∧
      (handleSubmit [CartItem.mk "A" "A" 100 3]
          (FormData.mk "x" "017" "addr" LocationType.inside_dhaka)
          (DeliveryCharges.mk 60 120) [ProductRow.mk "A" "A" 5 100]
          (BackendFlags.mk false false "oid1" false)).outcome =
        Except.ok "oid1") :=
  ⟨by
    simp [round2, totalPrice, deliveryCharge]
    norm_num,
    checkout_success_order [CartItem.mk "A" "A" 100 3]
      (FormData.mk "x" "017" "addr" LocationType.inside_dhaka)
      (DeliveryCharges.mk 60 120) [ProductRow.mk "A" "A" 5 100]
      (BackendFlags.mk false false "oid1" false)
      (by decide) (by decide) (by decide) (by decide) (by decide) (by decide)
      (by decide) (by decide) (by decide) (by decide) (by decide) (by decide)⟩

/-- C5 witness: the single inserted order-item row snapshots product id A,
quantity 3 and the rounded price. -/
theorem checkout_success_order_items_witness :
    round2 100 = 100 ∧
      ((handleSubmit [CartItem.mk "A" "A" 100 3]
          (FormData.mk "y" "018" "addr2" LocationType.outside_dhaka)
          (DeliveryCharges.mk 60 120) [ProductRow.mk "A" "A" 5 100]
          (BackendFlags.mk false false "oid2" false)).orderItems =
        [CartItem.mk "A" "A" 100 3].map (fun i =>
          OrderItemRow.mk "oid2" i.id i.quantity (round2 i.price)) ∧
      (handleSubmit [CartItem.mk "A" "A" 100 3]
          (FormData.mk "y" "018" "addr2" LocationType.outside_dhaka)
          (DeliveryCharges.mk 60 120) [ProductRow.mk "A" "A" 5 100]
          (BackendFlags.mk false false "oid2" false)).orderItems.length =
        [CartItem.mk "A" "A" 100 3].length) :=
  ⟨by
    simp [round2]
    norm_num,
    checkout_success_order_items [CartItem.mk "A" "A" 100 3]
      (FormData.mk "y" "018" "addr2" LocationType.outside_dhaka)
      (DeliveryCharges.mk 60 120) [ProductRow.mk "A" "A" 5 100]
      (BackendFlags.mk false false "oid2" false)
      (by decide) (by decide) (by decide) (by decide) (by decide) (by decide)
      (by decide) (by decide) (by decide) (by decide) (by decide) (by decide)⟩

/-- C10 witness: at a concrete reachable submission the built order-item
list is the full cart image and the zero-items branch is not reported. -/
theorem order_items_construction_total_witness :
    ([CartItem.mk "B" "B" 50 2] ≠ ([] : List CartItem)) ∧
      (orderItemsOf [CartItem.mk "B" "B" 50 2] [ProductRow.mk "B" "B" 9 50]
          "oid3" =
        [CartItem.mk "B" "B" 50 2].map (fun i =>
          OrderItemRow.mk "oid3" i.id i.quantity (round2 i.price)) ∧
      (orderItemsOf [CartItem.mk "B" "B" 50 2] [ProductRow.mk "B" "B" 9 50]
          "oid3").length = [CartItem.mk "B" "B" 50 2].length ∧
      orderItemsOf [CartItem.mk "B" "B" 50 2] [ProductRow.mk "B" "B" 9 50]
          "oid3" ≠ [] ∧
      (handleSubmit [CartItem.mk "B" "B" 50 2]
          (FormData.mk "z" "019" "addr3" LocationType.inside_dhaka)
          (DeliveryCharges.mk 60 120) [ProductRow.mk "B" "B" 9 50]
          (BackendFlags.mk false false "oid3" true)).outcome ≠
        Except.error SubmitError.noValidItems) :=
  ⟨by decide,
    order_items_construction_total [CartItem.mk "B" "B" 50 2]
      (FormData.mk "z" "019" "addr3" LocationType.inside_dhaka)
      (DeliveryCharges.mk 60 120) [ProductRow.mk "B" "B" 9 50]
      (BackendFlags.mk false false "oid3" true)
      (by decide) (by decide) (by decide) (by decide) (by decide) (by decide)
      (by decide) (by decide) (by decide) (by decide) (by decide)⟩

/-- C7 witness: a video URL yields none, an allow-listed image URL is
returned, at concrete inputs. -/
theorem getFirstImageUrl_spec_witness :
    getFirstImageUrl noParse (ImageData.str "http://x/v.mp4") =
        Option.none ∧
      isValidImage (Json.str "http://x/v.mp4") = false ∧
      getFirstImageUrl noParse (ImageData.str "http://x/a.PNG") =
        some "http://x/a.PNG" := by
  refine ⟨?_, by decide, ?_⟩
  · rw [(getFirstImageUrl_spec noParse (ImageData.str "http://x/v.mp4")).1]
    decide
  · rw [(getFirstImageUrl_spec noParse (ImageData.str "http://x/a.PNG")).1]
    decide

end Gadget
